import Mathlib

/-!
Verification of the plai-actions pipeline: a shallow embedding of the
pure data-shaping core of `src/index.ts` (standings table formatting,
fixture filtering and rendering, prompt generation, Gemini response
handling, environment validation and the main run sequence) together
with the data model of `src/types.ts`, and theorems about the claimed
properties of that code.
-/

namespace Plai

/-- Team from types.ts: identity record for one club. -/
structure Team where
  id : Int
  name : String
  shortName : String
  tla : String
  crest : String
deriving Repr, DecidableEq

/-- StandingEntry from types.ts: one team's league-table row. -/
structure StandingEntry where
  position : Int
  team : Team
  playedGames : Int
  won : Int
  draw : Int
  lost : Int
  points : Int
  goalsFor : Int
  goalsAgainst : Int
  goalDifference : Int
  form : String
deriving Repr, DecidableEq

/-- Match from types.ts, plus the matchday field that the runtime value
carries and formatFixtures reads (the declared TS type omits it, but the
code at index.ts:98-99 accesses match.matchday on every element). -/
structure Match where
  id : Int
  homeTeam : Team
  awayTeam : Team
  utcDate : String
  status : String
  matchday : Int
deriving Repr, DecidableEq

/-- FormattedStanding from types.ts: the display projection of a row. -/
structure FormattedStanding where
  position : Int
  team : String
  MP : Int
  W : Int
  D : Int
  L : Int
  F : Int
  A : Int
  GD : Int
  P : Int
  form : String
deriving Repr, DecidableEq

/-- PredictionResult from types.ts. -/
structure PredictionResult where
  prediction : String
  probability : Int
  analysis : String
deriving Repr, DecidableEq

/-- MatchPrediction from types.ts. -/
structure MatchPrediction where
  match_label : String
  potentialScore : String
  result : PredictionResult
  overUnder : PredictionResult
  bothTeamsToScore : PredictionResult
deriving Repr, DecidableEq

/-- PredictionResponse from types.ts: the typed shape the generated
text is supposed to parse into. -/
structure PredictionResponse where
  predictions : List MatchPrediction
deriving Repr, DecidableEq

/-- One part of a Gemini candidate's content: carries the generated text
(index.ts:178 reads content.parts[0].text). -/
structure Part where
  text : String
deriving Repr, DecidableEq

/-- The content of a Gemini candidate; parts is the array indexed at 0. -/
structure Content where
  parts : List Part
deriving Repr, DecidableEq

/-- One Gemini candidate; content may be absent (index.ts:177 tests
candidates[0].content for truthiness). -/
structure Candidate where
  content : Option Content
deriving Repr, DecidableEq

/-- The response.data object of the Gemini call: candidates may be an
absent field (None) or a present array (index.ts:177). -/
structure GeminiData where
  candidates : Option (List Candidate)
deriving Repr, DecidableEq

/-- A transport-level (axios/HTTP) failure, carrying its message. -/
structure TransportError where
  message : String
deriving Repr, DecidableEq

/-- How getPredictions can fail: a propagated transport error, the
explicit Error(\x22Invalid response format from Gemini API\x22) thrown at
index.ts:181, or the JS TypeError raised by reading a property of
undefined (indexing an empty array at index.ts:177-178). -/
inductive GemFailure where
  | transport (e : TransportError)
  | invalidFormat
  | typeError
deriving Repr, DecidableEq

/-- Whether a failure is the transport case (axios.isAxiosError). -/
def GemFailure.isTransport : GemFailure → Bool
  | .transport _ => true
  | _ => false

/-- formatStandingsTable from index.ts:79-93: field-for-field projection
of each StandingEntry into a FormattedStanding, by map. -/
def formatStandingsTable (standings : List StandingEntry) : List FormattedStanding :=
  standings.map (fun team =>
    { position := team.position
      team := team.team.name
      MP := team.playedGames
      W := team.won
      D := team.draw
      L := team.lost
      F := team.goalsFor
      A := team.goalsAgainst
      GD := team.goalDifference
      P := team.points
      form := team.form })

/-- Array.prototype.join with a newline separator, as used at
index.ts:101: empty list gives the empty string, a single element gives
itself, otherwise elements separated by one newline each. -/
def joinLines : List String → String
  | [] => ""
  | [s] => s
  | s :: rest => s ++ "\n" ++ joinLines rest

/-- formatFixtures from index.ts:95-102: empty input short-circuits to
the empty string; otherwise filter to the first fixture's matchday and
render each kept fixture as home name, a dash, away name, joined by
newlines. -/
def formatFixtures (fixtures : List Match) : String :=
  match fixtures with
  | [] => ""
  | first :: rest =>
    joinLines (((first :: rest).filter (fun m => m.matchday == first.matchday)).map
      (fun m => m.homeTeam.name ++ " - " ++ m.awayTeam.name))

/-- Lowercase hexadecimal digit for values below 16, as used in the
unicode escapes JSON.stringify emits. -/
def hexDigit (n : Nat) : Char :=
  if n < 10 then Char.ofNat (48 + n) else Char.ofNat (87 + n)

/-- How JSON.stringify escapes one character inside a string literal:
quote and backslash get a backslash, the named control escapes are used
for backspace, form feed, newline, carriage return and tab, any other
control character becomes a 4-digit unicode escape, and everything else
is passed through. -/
def escapeJsonChar (c : Char) : String :=
  if c = '"' then "\\\""
  else if c = '\\' then "\\\\"
  else if c = '\x08' then "\\b"
  else if c = '\x0c' then "\\f"
  else if c = '\n' then "\\n"
  else if c = '\r' then "\\r"
  else if c = '\t' then "\\t"
  else if c.toNat < 32 then
    "\\u00" ++ String.mk [hexDigit (c.toNat / 16), hexDigit (c.toNat % 16)]
  else String.singleton c

/-- A JSON string literal: the escaped characters between quotes. -/
def jsonString (s : String) : String :=
  "\"" ++ String.join (s.data.map escapeJsonChar) ++ "\""

/-- Array.prototype.join with an arbitrary separator. -/
def joinWith (sep : String) : List String → String
  | [] => ""
  | [s] => s
  | s :: rest => s ++ sep ++ joinWith sep rest

/-- One FormattedStanding as JSON.stringify(_, null, 2) renders it as an
element of the top-level array: an object whose keys appear in the
insertion order of formatStandingsTable, each field line indented four
spaces, the closing brace indented two. -/
def stringifyStanding (t : FormattedStanding) : String :=
  "\x7b\n    \"position\": " ++ toString t.position ++
  ",\n    \"team\": " ++ jsonString t.team ++
  ",\n    \"MP\": " ++ toString t.MP ++
  ",\n    \"W\": " ++ toString t.W ++
  ",\n    \"D\": " ++ toString t.D ++
  ",\n    \"L\": " ++ toString t.L ++
  ",\n    \"F\": " ++ toString t.F ++
  ",\n    \"A\": " ++ toString t.A ++
  ",\n    \"GD\": " ++ toString t.GD ++
  ",\n    \"P\": " ++ toString t.P ++
  ",\n    \"form\": " ++ jsonString t.form ++
  "\n  \x7d"

/-- JSON.stringify(standings, null, 2) at index.ts:106: the indented
JSON serialization of the formatted standings array. -/
def stringifyStandings (standings : List FormattedStanding) : String :=
  match standings with
  | [] => "[]"
  | l => "[\n  " ++ joinWith ",\n  " (l.map stringifyStanding) ++ "\n]"

/-- The fixed text of the prompt template before the standings JSON
(index.ts:105-106). -/
def promptHeader : String :=
  "Use this example football league table.\n"

/-- The fixed text of the prompt template between the standings JSON
and the fixtures block: the column glossary and the lead-in to the
fixtures (index.ts:106-120). -/
def promptGlossary : String :=
  "\n\nTable headers are:\nMP means Matches Played\nW means number of wins\nD means number of draws\nL means number of losses\nF means goals scored\nA means goals conceded\nD is the goals difference\nP is the number of points\n\nAssume that these are the fixtures:\n\n"

/-- The fixed text of the prompt template after the fixtures block: the
instruction list and the example output JSON (index.ts:120-153). -/
def promptInstructions : String :=
  "\n\nAct like a professional football match predictor and analyse these fixtures.\nFor each match provide\n- A potential score\n- 90 minute result Win/Draw/Lose\n- Over or Under 2.5 goals\n- Both teams to score Yes/No\n- Probably of each of these predictions happening separately\n\nPrint in JSON format as shown in the example below:\n\x7b\n  \"predictions\": [\n    \x7b\n      \"match\": \"Team A v Team B\",\n      \"potentialScore\": \"2-1\",\n      \"result\": \x7b\n        \"prediction\": \"Team A Win\",\n        \"probability\": 65,\n        \"analysis\": \"Analysis here\"\n      \x7d,\n      \"overUnder\": \x7b\n        \"prediction\": \"Over 2.5 Goals\",\n        \"probability\": 60,\n        \"analysis\": \"Analysis here\"\n      \x7d,\n      \"bothTeamsToScore\": \x7b\n        \"prediction\": \"Yes\",\n        \"probability\": 75,\n        \"analysis\": \"Analysis here\"\n      \x7d\n    \x7d\n  ]\n\x7d"

/-- generatePrompt from index.ts:104-154: the template string with the
standings JSON and the fixtures text spliced into its two holes. -/
def generatePrompt (standings : List FormattedStanding) (fixtures : String) : String :=
  promptHeader ++ stringifyStandings standings ++ promptGlossary ++ fixtures ++
    promptInstructions

/-- requiredEnvVars from index.ts:14. -/
def requiredEnvVars : List String :=
  ["FOOTBALL_API_KEY", "GOOGLE_API_KEY"]

/-- JS truthiness test applied to a process.env lookup at index.ts:16:
an absent variable (undefined) and the empty string are both falsy. -/
def envFalsy : Option String → Bool
  | none => true
  | some s => s == ""

/-- The validation loop of index.ts:15-19: walk the required names in
order and throw on the first falsy one. -/
def validateEnv (env : String → Option String) : List String → Except String Unit
  | [] => .ok ()
  | v :: rest =>
    if envFalsy (env v) then
      .error ("Missing required environment variable: " ++ v)
    else
      validateEnv env rest

/-- The module-level startup validation over the two required names. -/
def validateEnvVars (env : String → Option String) : Except String Unit :=
  validateEnv env requiredEnvVars

/-- getPredictions from index.ts:156-190, modelled on the world of
possible Gemini responses. A transport failure of the POST propagates.
On a response, the code tests candidates and candidates[0].content for
truthiness: an absent candidates field fails that test and throws the
invalid-format Error; a present but empty candidates array makes the
indexing expression read content of undefined, a TypeError, before the
Error branch is reached, and an empty parts array likewise makes
parts[0].text a TypeError; otherwise the raw generated text is returned
unchanged. The success value is the unparsed string: the source casts
it to PredictionResponse without any JSON parsing. -/
def getPredictions (prompt : String) (resp : Except TransportError GeminiData) :
    Except GemFailure String :=
  match resp with
  | .error e => .error (.transport e)
  | .ok data =>
    match data.candidates with
    | none => .error .invalidFormat
    | some [] => .error .typeError
    | some (c :: _) =>
      match c.content with
      | none => .error .invalidFormat
      | some content =>
        match content.parts with
        | [] => .error .typeError
        | p :: _ => .ok p.text

/-- Observable events of one run: the three network calls, in the order
main awaits them, and synchronous file writes (directory creation at
index.ts:226-228 is elided as it touches no data file). -/
inductive Event where
  | netStandings
  | netFixtures
  | netAI (prompt : String)
  | writeFile (path : String) (contents : String)
deriving Repr, DecidableEq

/-- The fixed output path of index.ts:223. -/
def outputPath : String := "./output/data.json"

/-- main from index.ts:192-241 together with the module-level startup
validation: the exit code and the ordered trace of observable events.
The startup check runs before main, so a missing variable produces an
uncaught throw with no events; each fetch failure aborts after its own
network call; on full success the file is cleared and then written with
the predictions (index.ts:231-234), both writes after the AI call. -/
def runProgram (env : String → Option String)
    (standingsResp : Except TransportError (List StandingEntry))
    (fixturesResp : Except TransportError (List Match))
    (aiResp : Except TransportError GeminiData) : Nat × List Event :=
  match validateEnvVars env with
  | .error _ => (1, [])
  | .ok _ =>
    match standingsResp with
    | .error _ => (1, [.netStandings])
    | .ok standings =>
      match fixturesResp with
      | .error _ => (1, [.netStandings, .netFixtures])
      | .ok fixtures =>
        match getPredictions
            (generatePrompt (formatStandingsTable standings) (formatFixtures fixtures))
            aiResp with
        | .error _ =>
          (1, [.netStandings, .netFixtures,
               .netAI (generatePrompt (formatStandingsTable standings)
                 (formatFixtures fixtures))])
        | .ok predictions =>
          (0, [.netStandings, .netFixtures,
               .netAI (generatePrompt (formatStandingsTable standings)
                 (formatFixtures fixtures)),
               .writeFile outputPath "", .writeFile outputPath predictions])

/-- Number of newline-delimited lines of a string: zero for the empty
string, otherwise one more than the number of newline characters. -/
def lineCount (s : String) : Nat :=
  if s.data = [] then 0 else s.data.count '\n' + 1

/-- The first newline-delimited line of a string: the characters before
the first newline. -/
def firstLine (s : String) : String :=
  String.mk (s.data.takeWhile (fun c => !(c == '\n')))

/-- A team with the given id and name and empty remaining fields, for
concrete test inputs. -/
def mkTeam (n : Int) (name : String) : Team :=
  { id := n, name := name, shortName := name, tla := "", crest := "" }

/-- A scheduled fixture with the given id, team names and matchday, for
concrete test inputs. -/
def mkMatch (i : Int) (home away : String) (day : Int) : Match :=
  { id := i, homeTeam := mkTeam (2 * i) home, awayTeam := mkTeam (2 * i + 1) away
    utcDate := "", status := "SCHEDULED", matchday := day }

/-- The three-fixture example of the spec: two fixtures on matchday 11
and one on matchday 12. -/
def specFixtures : List Match :=
  [mkMatch 1 "Arsenal" "Chelsea" 11, mkMatch 2 "Liverpool" "City" 11,
   mkMatch 3 "Arsenal" "City" 12]

/-- A fixture whose home team name contains a newline character. -/
def nlMatch : Match := mkMatch 7 "A\nB" "C" 1

/-- A minimal generated text that is valid JSON of the prediction
schema. -/
def samplePredictionText : String := "\x7b\"predictions\":[]\x7d"

/-- A well-formed Gemini response carrying samplePredictionText. -/
def sampleGeminiData : GeminiData :=
  { candidates := some [{ content := some { parts := [{ text := samplePredictionText }] } }] }

/-- A Gemini response whose candidates array is present but empty. -/
def emptyCandidatesData : GeminiData := { candidates := some [] }

theorem joinLines_cons_cons (s t : String) (rest : List String) :
    joinLines (s :: t :: rest) = s ++ "\n" ++ joinLines (t :: rest) := rfl

theorem mk_data (s : String) : String.mk s.data = s := rfl

theorem data_joinLines_count_nl (l : List String)
    (h : ∀ s ∈ l, s.data.count '\n' = 0) :
    (joinLines l).data.count '\n' = l.length - 1 := by
  induction l with
  | nil => decide
  | cons s rest ih =>
    cases rest with
    | nil =>
      simpa [joinLines] using h s (by simp)
    | cons t rs =>
      rw [joinLines_cons_cons]
      have hs := h s (by simp)
      have hrest := ih (fun x hx => h x (by simp [hx]))
      simp [String.data_append, List.count_append, hs, hrest]

theorem data_joinLines_ne_nil (l : List String) (hne : l ≠ [])
    (h : ∀ s ∈ l, s.data ≠ []) : (joinLines l).data ≠ [] := by
  cases l with
  | nil => exact absurd rfl hne
  | cons s rest =>
    cases rest with
    | nil => simpa [joinLines] using h s (by simp)
    | cons t rs =>
      rw [joinLines_cons_cons]
      simp [String.data_append]

theorem lineCount_joinLines (l : List String) (hne : l ≠ [])
    (h : ∀ s ∈ l, s.data ≠ [] ∧ s.data.count '\n' = 0) :
    lineCount (joinLines l) = l.length := by
  unfold lineCount
  rw [if_neg (data_joinLines_ne_nil l hne (fun s hs => (h s hs).1))]
  rw [data_joinLines_count_nl l (fun s hs => (h s hs).2)]
  cases l with
  | nil => exact absurd rfl hne
  | cons s rest => simp

theorem takeWhile_of_all (p : Char → Bool) (l : List Char)
    (h : ∀ c ∈ l, p c = true) : List.takeWhile p l = l := by
  induction l with
  | nil => rfl
  | cons c cs ih =>
    rw [List.takeWhile_cons, if_pos (h c (by simp))]
    rw [ih (fun x hx => h x (by simp [hx]))]

theorem takeWhile_append_of (p : Char → Bool) (xs : List Char) (y : Char)
    (ys : List Char) (hx : ∀ c ∈ xs, p c = true) (hy : p y = false) :
    List.takeWhile p (xs ++ y :: ys) = xs := by
  induction xs with
  | nil => simp [List.takeWhile_cons, hy]
  | cons c cs ih =>
    rw [List.cons_append, List.takeWhile_cons, if_pos (hx c (by simp))]
    rw [ih (fun x hxm => hx x (by simp [hxm]))]

theorem matchRender_count_nl (x : Match)
    (h1 : '\n' ∉ x.homeTeam.name.data) (h2 : '\n' ∉ x.awayTeam.name.data) :
    (x.homeTeam.name ++ " - " ++ x.awayTeam.name).data.count '\n' = 0 := by
  simp [String.data_append, List.count_append, List.count_eq_zero.mpr h1,
    List.count_eq_zero.mpr h2]

theorem matchRender_ne_nil (x : Match) :
    (x.homeTeam.name ++ " - " ++ x.awayTeam.name).data ≠ [] := by
  simp [String.data_append]

theorem no_nl_all (s : String) (h : '\n' ∉ s.data) :
    ∀ c ∈ s.data, (!(c == '\n')) = true := by
  intro c hc
  have hne : c ≠ '\n' := by rintro rfl; exact h hc
  simp [hne]

theorem matchRender_no_nl (x : Match)
    (h1 : '\n' ∉ x.homeTeam.name.data) (h2 : '\n' ∉ x.awayTeam.name.data) :
    '\n' ∉ (x.homeTeam.name ++ " - " ++ x.awayTeam.name).data := by
  have := matchRender_count_nl x h1 h2
  intro hmem
  rw [List.count_eq_zero] at this
  exact this hmem

theorem joinLines_head_line (s : String) (rest : List String)
    (hnl : '\n' ∉ s.data) (hne : s.data ≠ []) :
    joinLines (s :: rest) ≠ "" ∧ firstLine (joinLines (s :: rest)) = s := by
  cases rest with
  | nil =>
    constructor
    · show s ≠ ""
      intro he
      apply hne
      rw [he]
    · show firstLine s = s
      unfold firstLine
      rw [takeWhile_of_all _ _ (no_nl_all s hnl), mk_data]
  | cons t rs =>
    rw [joinLines_cons_cons]
    have hdata : (s ++ "\n" ++ joinLines (t :: rs)).data
        = s.data ++ '\n' :: (joinLines (t :: rs)).data := by
      simp [String.data_append]
    constructor
    · intro he
      have : (s ++ "\n" ++ joinLines (t :: rs)).data = [] := by rw [he]
      rw [hdata] at this
      simp at this
    · unfold firstLine
      rw [hdata, takeWhile_append_of _ _ _ _ (no_nl_all s hnl) (by decide), mk_data]

theorem runProgram_env_error {env : String → Option String}
    {std : Except TransportError (List StandingEntry)}
    {fix : Except TransportError (List Match)}
    {ai : Except TransportError GeminiData} {msg : String}
    (h : validateEnvVars env = Except.error msg) :
    runProgram env std fix ai = (1, []) := by
  simp [runProgram, h]

theorem runProgram_std_error {env : String → Option String}
    {std : Except TransportError (List StandingEntry)}
    {fix : Except TransportError (List Match)}
    {ai : Except TransportError GeminiData} {u : Unit} {e : TransportError}
    (hv : validateEnvVars env = Except.ok u) (hs : std = Except.error e) :
    runProgram env std fix ai = (1, [Event.netStandings]) := by
  simp [runProgram, hv, hs]

theorem runProgram_fix_error {env : String → Option String}
    {std : Except TransportError (List StandingEntry)}
    {fix : Except TransportError (List Match)}
    {ai : Except TransportError GeminiData} {u : Unit}
    {standings : List StandingEntry} {e : TransportError}
    (hv : validateEnvVars env = Except.ok u) (hs : std = Except.ok standings)
    (hf : fix = Except.error e) :
    runProgram env std fix ai = (1, [Event.netStandings, Event.netFixtures]) := by
  simp [runProgram, hv, hs, hf]

theorem runProgram_ai_error {env : String → Option String}
    {std : Except TransportError (List StandingEntry)}
    {fix : Except TransportError (List Match)}
    {ai : Except TransportError GeminiData} {u : Unit}
    {standings : List StandingEntry} {fixtures : List Match} {e : GemFailure}
    (hv : validateEnvVars env = Except.ok u) (hs : std = Except.ok standings)
    (hf : fix = Except.ok fixtures)
    (hg : getPredictions (generatePrompt (formatStandingsTable standings)
      (formatFixtures fixtures)) ai = Except.error e) :
    runProgram env std fix ai =
      (1, [Event.netStandings, Event.netFixtures,
           Event.netAI (generatePrompt (formatStandingsTable standings)
             (formatFixtures fixtures))]) := by
  simp [runProgram, hv, hs, hf, hg]

theorem runProgram_success {env : String → Option String}
    {std : Except TransportError (List StandingEntry)}
    {fix : Except TransportError (List Match)}
    {ai : Except TransportError GeminiData} {u : Unit}
    {standings : List StandingEntry} {fixtures : List Match} {s : String}
    (hv : validateEnvVars env = Except.ok u) (hs : std = Except.ok standings)
    (hf : fix = Except.ok fixtures)
    (hg : getPredictions (generatePrompt (formatStandingsTable standings)
      (formatFixtures fixtures)) ai = Except.ok s) :
    runProgram env std fix ai =
      (0, [Event.netStandings, Event.netFixtures,
           Event.netAI (generatePrompt (formatStandingsTable standings)
             (formatFixtures fixtures)),
           Event.writeFile outputPath "", Event.writeFile outputPath s]) := by
  simp [runProgram, hv, hs, hf, hg]

/-- C1: on a well-formed response whose embedded text is valid JSON of
the prediction schema, getPredictions returns the raw embedded text
string unchanged; the source casts it to PredictionResponse without
parsing, so no structurally parsed PredictionResponse value is ever
produced. This evaluates the code at the failing input. -/
theorem getPredictions_returns_raw_text :
    getPredictions "" (Except.ok sampleGeminiData) =
      Except.ok samplePredictionText := rfl

/-- C2: formatFixtures yields the empty string on the empty sequence,
and on a non-empty sequence it renders exactly the retained fixtures, an
in-order subsequence of the input containing precisely the fixtures
whose matchday equals the first element of the input, each rendered as
home name, dash, away name, joined with newline separators. -/
theorem formatFixtures_matchday_filter :
    formatFixtures [] = "" ∧
    ∀ (m : Match) (ms : List Match), ∃ kept : List Match,
      formatFixtures (m :: ms) =
        joinLines (kept.map (fun x => x.homeTeam.name ++ " - " ++ x.awayTeam.name)) ∧
      kept.Sublist (m :: ms) ∧
      (∀ x ∈ kept, x.matchday = m.matchday) ∧
      (∀ x ∈ m :: ms, x.matchday = m.matchday → x ∈ kept) := by
  refine ⟨rfl, fun m ms => ⟨(m :: ms).filter (fun x => x.matchday == m.matchday),
    rfl, List.filter_sublist _, ?_, ?_⟩⟩
  · intro x hx
    have := List.mem_filter.mp hx
    exact beq_iff_eq.mp this.2
  · intro x hx hday
    exact List.mem_filter.mpr ⟨hx, beq_iff_eq.mpr hday⟩

/-- C3 counterexample: a fixture whose home team name contains a newline
character makes the output have two newline-delimited lines although
only one input fixture shares the first fixture's matchday, refuting the
claimed line-count equation on this input. -/
theorem formatFixtures_lineCount_cx :
    lineCount (formatFixtures [nlMatch]) ≠
      (([nlMatch]).filter (fun x => x.matchday == nlMatch.matchday)).length := by
  decide

/-- C3 (amended): for every non-empty fixture sequence whose team names
contain no newline character, the number of newline-delimited lines of
the formatFixtures output equals the number of input fixtures whose
matchday equals the first fixture's matchday. -/
theorem formatFixtures_lineCount (m : Match) (ms : List Match)
    (h : ∀ x ∈ m :: ms,
      '\n' ∉ x.homeTeam.name.data ∧ '\n' ∉ x.awayTeam.name.data) :
    lineCount (formatFixtures (m :: ms)) =
      ((m :: ms).filter (fun x => x.matchday == m.matchday)).length := by
  show lineCount (joinLines (((m :: ms).filter
      (fun x => x.matchday == m.matchday)).map
      (fun x => x.homeTeam.name ++ " - " ++ x.awayTeam.name))) = _
  have hcons : (m :: ms).filter (fun x => x.matchday == m.matchday) =
      m :: ms.filter (fun x => x.matchday == m.matchday) :=
    List.filter_cons_of_pos (by simp)
  rw [lineCount_joinLines]
  · rw [List.length_map]
  · rw [hcons]
    simp
  · intro s hs
    obtain ⟨x, hx, rfl⟩ := List.mem_map.mp hs
    have hxmem : x ∈ m :: ms := List.mem_of_mem_filter hx
    obtain ⟨hh, ha⟩ := h x hxmem
    exact ⟨matchRender_ne_nil x, matchRender_count_nl x hh ha⟩

/-- C3 witness: on the three-fixture example of the spec (two fixtures
on matchday 11, one on matchday 12) the output has exactly two lines. -/
theorem formatFixtures_lineCount_witness :
    lineCount (formatFixtures specFixtures) = 2 := by
  have h := formatFixtures_lineCount (mkMatch 1 "Arsenal" "Chelsea" 11)
    [mkMatch 2 "Liverpool" "City" 11, mkMatch 3 "Arsenal" "City" 12] (by decide)
  exact h.trans (by decide)

/-- C4: formatStandingsTable returns a list of the same length, order
preserved index by index, where each output entry takes its P field
exactly from the input entry points field, its team field from the
input team name and its position from the input position. -/
theorem formatStandingsTable_length_points (xs : List StandingEntry) (i : Nat) :
    (formatStandingsTable xs).length = xs.length ∧
    ((formatStandingsTable xs)[i]?).map FormattedStanding.P =
      (xs[i]?).map StandingEntry.points ∧
    ((formatStandingsTable xs)[i]?).map FormattedStanding.team =
      (xs[i]?).map (fun e => e.team.name) ∧
    ((formatStandingsTable xs)[i]?).map FormattedStanding.position =
      (xs[i]?).map StandingEntry.position := by
  refine ⟨by simp [formatStandingsTable], ?_, ?_, ?_⟩ <;>
    simp [formatStandingsTable, List.getElem?_map, Option.map_map] <;>
    rfl

/-- C5: the generatePrompt output contains, as verbatim substrings, both
the indented JSON serialization of the standings and the fixtures text
passed in. -/
theorem generatePrompt_contains (standings : List FormattedStanding)
    (fixtures : String) :
    (∃ pre post : List Char, (generatePrompt standings fixtures).data =
      pre ++ (stringifyStandings standings).data ++ post) ∧
    (∃ pre post : List Char, (generatePrompt standings fixtures).data =
      pre ++ fixtures.data ++ post) := by
  constructor
  · exact ⟨promptHeader.data,
      promptGlossary.data ++ fixtures.data ++ promptInstructions.data,
      by simp [generatePrompt, String.data_append]⟩
  · exact ⟨promptHeader.data ++ (stringifyStandings standings).data ++
      promptGlossary.data, promptInstructions.data,
      by simp [generatePrompt, String.data_append]⟩

/-- C6 counterexample: a response whose candidates array is present but
empty makes getPredictions fail with the TypeError of indexing into an
empty array, not with the invalid-response-format error the claim
promises for every response lacking the candidate and content
structure. -/
theorem getPredictions_empty_candidates_cx :
    getPredictions "" (Except.ok emptyCandidatesData) =
      Except.error GemFailure.typeError ∧
    getPredictions "" (Except.ok emptyCandidatesData) ≠
      Except.error GemFailure.invalidFormat := by
  constructor
  · rfl
  · intro h
    have h2 : (Except.error GemFailure.typeError : Except GemFailure String) =
        Except.error GemFailure.invalidFormat := h
    simp at h2

/-- C6 (amended): when the candidates field is absent, or the first
candidate exists and lacks content, getPredictions fails with the
invalid-response-format error; when the candidates array is present but
empty it instead fails with a TypeError; and every error produced from
a delivered response is distinguishable from a transport failure. -/
theorem getPredictions_shape_error (p : String) (d : GeminiData) :
    (d.candidates = none →
      getPredictions p (Except.ok d) = Except.error GemFailure.invalidFormat) ∧
    (∀ c cs, d.candidates = some (c :: cs) → c.content = none →
      getPredictions p (Except.ok d) = Except.error GemFailure.invalidFormat) ∧
    (d.candidates = some [] →
      getPredictions p (Except.ok d) = Except.error GemFailure.typeError) ∧
    (∀ e, getPredictions p (Except.ok d) = Except.error e →
      e.isTransport = false) := by
  obtain ⟨cands⟩ := d
  refine ⟨?_, ?_, ?_, ?_⟩
  · rintro rfl
    rfl
  · rintro c cs rfl hc
    simp [getPredictions, hc]
  · rintro rfl
    rfl
  · intro e he
    rcases cands with _ | ⟨_ | ⟨c, cs⟩⟩
    · rw [show getPredictions p (Except.ok ⟨none⟩) =
        Except.error GemFailure.invalidFormat from rfl] at he
      cases he
      rfl
    · rw [show getPredictions p (Except.ok ⟨some []⟩) =
        Except.error GemFailure.typeError from rfl] at he
      cases he
      rfl
    · rcases c with ⟨_ | ⟨parts⟩⟩
      · rw [show getPredictions p (Except.ok ⟨some (⟨none⟩ :: cs)⟩) =
          Except.error GemFailure.invalidFormat from rfl] at he
        cases he
        rfl
      · rcases parts with _ | ⟨pt, pts⟩
        · rw [show getPredictions p (Except.ok ⟨some (⟨some ⟨[]⟩⟩ :: cs)⟩) =
            Except.error GemFailure.typeError from rfl] at he
          cases he
          rfl
        · rw [show getPredictions p (Except.ok ⟨some (⟨some ⟨pt :: pts⟩⟩ :: cs)⟩) =
            Except.ok pt.text from rfl] at he
          cases he

/-- C7: if either required environment variable is absent, the run exits
with code 1 and an empty event trace, so no network call is attempted. -/
theorem runProgram_missing_env (env : String → Option String)
    (std : Except TransportError (List StandingEntry))
    (fix : Except TransportError (List Match))
    (ai : Except TransportError GeminiData)
    (h : env "FOOTBALL_API_KEY" = none ∨ env "GOOGLE_API_KEY" = none) :
    runProgram env std fix ai = (1, []) := by
  cases hv : validateEnvVars env with
  | error msg => exact runProgram_env_error hv
  | ok u =>
    exfalso
    simp only [validateEnvVars, requiredEnvVars, validateEnv] at hv
    by_cases h1 : envFalsy (env "FOOTBALL_API_KEY")
    · simp [h1] at hv
    · by_cases h2 : envFalsy (env "GOOGLE_API_KEY")
      · simp [h1, h2] at hv
      · rcases h with h | h
        · rw [h] at h1
          exact h1 rfl
        · rw [h] at h2
          exact h2 rfl

/-- C7 witness: with every environment variable absent, the run exits 1
with no events. -/
theorem runProgram_missing_env_witness :
    runProgram (fun _ => none) (Except.ok []) (Except.ok [])
      (Except.ok { candidates := none }) = (1, []) :=
  runProgram_missing_env _ _ _ _ (Or.inl rfl)

/-- C8: a write of the output file happens only in runs where every
prior stage succeeded, targets only the fixed output path and comes
after the three network events in the trace; on a standings fetch
failure, a fixtures fetch failure or any getPredictions failure no file
write occurs at all. -/
theorem runProgram_no_partial_output (env : String → Option String)
    (std : Except TransportError (List StandingEntry))
    (fix : Except TransportError (List Match))
    (ai : Except TransportError GeminiData) :
    (∀ p c, Event.writeFile p c ∈ (runProgram env std fix ai).2 →
      p = outputPath ∧
      ∃ standings fixtures s,
        std = Except.ok standings ∧ fix = Except.ok fixtures ∧
        getPredictions (generatePrompt (formatStandingsTable standings)
          (formatFixtures fixtures)) ai = Except.ok s ∧
        runProgram env std fix ai =
          (0, [Event.netStandings, Event.netFixtures,
               Event.netAI (generatePrompt (formatStandingsTable standings)
                 (formatFixtures fixtures)),
               Event.writeFile outputPath "", Event.writeFile outputPath s])) ∧
    (∀ e, std = Except.error e →
      ∀ p c, Event.writeFile p c ∉ (runProgram env std fix ai).2) ∧
    (∀ e, fix = Except.error e →
      ∀ p c, Event.writeFile p c ∉ (runProgram env std fix ai).2) ∧
    (∀ q e, getPredictions q ai = Except.error e →
      ∀ p c, Event.writeFile p c ∉ (runProgram env std fix ai).2) := by
  have hwrites : ∀ p c, Event.writeFile p c ∈ (runProgram env std fix ai).2 →
      p = outputPath ∧
      ∃ standings fixtures s,
        std = Except.ok standings ∧ fix = Except.ok fixtures ∧
        getPredictions (generatePrompt (formatStandingsTable standings)
          (formatFixtures fixtures)) ai = Except.ok s ∧
        runProgram env std fix ai =
          (0, [Event.netStandings, Event.netFixtures,
               Event.netAI (generatePrompt (formatStandingsTable standings)
                 (formatFixtures fixtures)),
               Event.writeFile outputPath "", Event.writeFile outputPath s]) := by
    intro p c hmem
    cases hv : validateEnvVars env with
    | error msg =>
      rw [runProgram_env_error hv] at hmem
      simp at hmem
    | ok u =>
      cases hstd : std with
      | error e =>
        rw [runProgram_std_error hv hstd] at hmem
        simp at hmem
      | ok standings =>
        cases hfix : fix with
        | error e =>
          rw [runProgram_fix_error hv hstd hfix] at hmem
          simp at hmem
        | ok fixtures =>
          cases hg : getPredictions (generatePrompt
              (formatStandingsTable standings) (formatFixtures fixtures)) ai with
          | error e =>
            rw [runProgram_ai_error hv hstd hfix hg] at hmem
            simp at hmem
          | ok s =>
            have hrun := runProgram_success hv hstd hfix hg
            rw [hstd, hfix] at hrun hmem
            rw [hrun] at hmem
            simp at hmem
            refine ⟨?_, standings, fixtures, s, rfl, rfl, hg, hrun⟩
            rcases hmem with ⟨hp, _⟩ | ⟨hp, _⟩ <;> exact hp
  refine ⟨hwrites, ?_, ?_, ?_⟩
  · intro e he p c hmem
    obtain ⟨_, standings, fixtures, s, hstd, _, _, _⟩ := hwrites p c hmem
    rw [he] at hstd
    cases hstd
  · intro e he p c hmem
    obtain ⟨_, standings, fixtures, s, _, hfix, _, _⟩ := hwrites p c hmem
    rw [he] at hfix
    cases hfix
  · intro q e he p c hmem
    obtain ⟨_, standings, fixtures, s, _, _, hg, _⟩ := hwrites p c hmem
    have hsame : getPredictions (generatePrompt (formatStandingsTable standings)
        (formatFixtures fixtures)) ai = getPredictions q ai := rfl
    rw [hsame, he] at hg
    cases hg

/-- C9 counterexample: when the first fixture has a home team name
containing a newline, the first newline-delimited line of the output is
the part of that name before the newline, not the claimed rendering of
the whole fixture. -/
theorem formatFixtures_first_line_cx :
    firstLine (formatFixtures [nlMatch]) ≠
      nlMatch.homeTeam.name ++ " - " ++ nlMatch.awayTeam.name := by
  decide

/-- C9 (amended): for every non-empty fixture sequence whose first
fixture has newline-free team names, the output is non-empty and its
first newline-delimited line is the first fixture rendered as home
name, dash, away name; the first element always passes the matchday
filter since it is compared against its own matchday. -/
theorem formatFixtures_first_line (m : Match) (ms : List Match)
    (h1 : '\n' ∉ m.homeTeam.name.data) (h2 : '\n' ∉ m.awayTeam.name.data) :
    formatFixtures (m :: ms) ≠ "" ∧
    firstLine (formatFixtures (m :: ms)) =
      m.homeTeam.name ++ " - " ++ m.awayTeam.name := by
  have hcons : (m :: ms).filter (fun x => x.matchday == m.matchday) =
      m :: ms.filter (fun x => x.matchday == m.matchday) :=
    List.filter_cons_of_pos (by simp)
  have hform : formatFixtures (m :: ms) =
      joinLines ((m.homeTeam.name ++ " - " ++ m.awayTeam.name) ::
        (ms.filter (fun x => x.matchday == m.matchday)).map
          (fun x => x.homeTeam.name ++ " - " ++ x.awayTeam.name)) := by
    show joinLines (((m :: ms).filter (fun x => x.matchday == m.matchday)).map
      (fun x => x.homeTeam.name ++ " - " ++ x.awayTeam.name)) = _
    rw [hcons, List.map_cons]
  rw [hform]
  exact joinLines_head_line _ _ (matchRender_no_nl m h1 h2) (matchRender_ne_nil m)

/-- C9 witness: on a concrete two-fixture input the output is non-empty
and its first line renders the first fixture. -/
theorem formatFixtures_first_line_witness :
    formatFixtures [mkMatch 1 "Arsenal" "Chelsea" 11,
      mkMatch 2 "Liverpool" "City" 11] ≠ "" ∧
    firstLine (formatFixtures [mkMatch 1 "Arsenal" "Chelsea" 11,
      mkMatch 2 "Liverpool" "City" 11]) =
      (mkMatch 1 "Arsenal" "Chelsea" 11).homeTeam.name ++ " - " ++
        (mkMatch 1 "Arsenal" "Chelsea" 11).awayTeam.name :=
  formatFixtures_first_line _ _ (by decide) (by decide)

/-- C10: formatStandingsTable is a homomorphism over list concatenation,
so each output row depends only on its own input row. -/
theorem formatStandingsTable_append (xs ys : List StandingEntry) :
    formatStandingsTable (xs ++ ys) =
      formatStandingsTable xs ++ formatStandingsTable ys := by
  simp [formatStandingsTable]

end Plai
